import Mathlib

/-!
Verification of the `const_env` attribute-macro implementation
(`const_env_impl/src/lib.rs`): a compile-time source transformer that
rewrites the literal initializer of a `const` or `static` declaration
with a value read from an environment-variable-like provider.

The embedding mirrors the source structurally: `syn` expression and
literal nodes become inductive types carrying payload, span and
attribute information; panics become `Except.error`; the `ReadEnv`
trait becomes a plain lookup function.  The external literal-token
parsers (`syn::parse_str` for the various `Lit*` types and
`str::parse::<bool>` from the Rust standard library) are not part of
this repository; they are modelled from the spec as decidable token
grammars over a narrow literal language.
-/

namespace ConstEnv

/-- The double-quote character, written by code point to keep the
source free of quote characters inside character literals. -/
def dquote : Char := Char.ofNat 34

/-- The single-quote character, by code point. -/
def squote : Char := Char.ofNat 39

/-- The backslash character, by code point. -/
def backslash : Char := Char.ofNat 92

/-- A span is source-position metadata; modelled as an opaque numeral
identifying a source location (`proc_macro2::Span`). -/
abbrev Span := Nat

/-- The span attached to freshly parsed tokens, standing for
`Span::call_site()`: the position implied by the replacement text
rather than by the original source. -/
def call_site_span : Span := 0

/-- Literal nodes, one constructor per `syn::Lit` variant used by the
source: payload plus span. -/
inductive Lit where
  | str (value : String) (span : Span)
  | byteStr (value : String) (span : Span)
  | byte (value : Char) (span : Span)
  | char (value : Char) (span : Span)
  | int (token : String) (span : Span)
  | float (token : String) (span : Span)
  | bool (value : Bool) (span : Span)
  | verbatim (token : String) (span : Span)
deriving Repr, DecidableEq

/-- The closed set of literal kinds (the tag of a `Lit`). -/
inductive LitKind where
  | str
  | byteStr
  | byte
  | char
  | int
  | float
  | bool
  | verbatim
deriving Repr, DecidableEq

/-- The tag of a literal node. -/
def Lit.kind : Lit → LitKind
  | .str _ _ => .str
  | .byteStr _ _ => .byteStr
  | .byte _ _ => .byte
  | .char _ _ => .char
  | .int _ _ => .int
  | .float _ _ => .float
  | .bool _ _ => .bool
  | .verbatim _ _ => .verbatim

/-- The span of a literal node. -/
def Lit.span : Lit → Span
  | .str _ sp => sp
  | .byteStr _ sp => sp
  | .byte _ sp => sp
  | .char _ sp => sp
  | .int _ sp => sp
  | .float _ sp => sp
  | .bool _ sp => sp
  | .verbatim _ sp => sp

/-- Replace the span of a literal node, keeping its payload
(`syn::Lit*::set_span`). -/
def Lit.set_span : Lit → Span → Lit
  | .str v _, sp => .str v sp
  | .byteStr v _, sp => .byteStr v sp
  | .byte v _, sp => .byte v sp
  | .char v _, sp => .char v sp
  | .int v _, sp => .int v sp
  | .float v _, sp => .float v sp
  | .bool v _, sp => .bool v sp
  | .verbatim v _, sp => .verbatim v sp

/-- Unary operators (`syn::UnOp`). -/
inductive UnOp where
  | deref
  | neg
  | notOp
deriving Repr, DecidableEq

/-- Expression nodes, restricted to the shapes the source
distinguishes: a literal expression with its outer attributes
(`syn::ExprLit` with `attrs`), a unary expression, a parenthesized
expression, and a catch-all for every other `syn::Expr` shape. -/
inductive Expr where
  | lit (attrs : List String) (l : Lit)
  | unary (attrs : List String) (op : UnOp) (inner : Expr)
  | paren (attrs : List String) (inner : Expr)
  | other (descr : String)
deriving Repr, DecidableEq

/-- A character allowed verbatim inside a (byte-)string literal token:
neither a closing double quote nor an escape introducer. -/
def plain_str_char (c : Char) : Bool :=
  c != dquote && c != backslash

/-- A character allowed verbatim inside a character or byte literal
token: neither a closing single quote nor an escape introducer. -/
def plain_char_content (c : Char) : Bool :=
  c != squote && c != backslash

/-- Modelled from the spec: the external string-literal token parser
(`syn::parse_str::<syn::LitStr>`), restricted to escape-free content.
Accepts a double-quoted token and returns its content together with
the call-site span the fresh token carries. -/
def parse_str_token (s : String) : Option (String × Span) :=
  match s.toList with
  | c :: rest =>
      if c == dquote && rest.getLast? == some dquote
          && rest.dropLast.all plain_str_char then
        some (String.mk rest.dropLast, call_site_span)
      else
        none
  | [] => none

/-- Modelled from the spec: the external byte-string-literal token
parser (`syn::parse_str::<syn::LitByteStr>`), restricted to
escape-free ASCII content. -/
def parse_byte_str_token (s : String) : Option (String × Span) :=
  match s.toList with
  | b :: c :: rest =>
      if b == 'b' && c == dquote && rest.getLast? == some dquote
          && rest.dropLast.all (fun ch => plain_str_char ch && ch.toNat < 128) then
        some (String.mk rest.dropLast, call_site_span)
      else
        none
  | _ => none

/-- Modelled from the spec: the external byte-literal token parser
(`syn::parse_str::<syn::LitByte>`): exactly one escape-free ASCII
character between single quotes, after a `b` prefix. -/
def parse_byte_token (s : String) : Option (Char × Span) :=
  match s.toList with
  | [b, q1, c, q2] =>
      if b == 'b' && q1 == squote && q2 == squote
          && plain_char_content c && c.toNat < 128 then
        some (c, call_site_span)
      else
        none
  | _ => none

/-- Modelled from the spec: the external character-literal token
parser (`syn::parse_str::<syn::LitChar>`): exactly one escape-free
character between single quotes. -/
def parse_char_token (s : String) : Option (Char × Span) :=
  match s.toList with
  | [q1, c, q2] =>
      if q1 == squote && q2 == squote && plain_char_content c then
        some (c, call_site_span)
      else
        none
  | _ => none

/-- Modelled from the spec: the external integer-literal token parser
(`syn::parse_str::<syn::LitInt>`), restricted to unsuffixed decimal
tokens: a nonempty string of decimal digits. -/
def parse_int_token (s : String) : Option (String × Span) :=
  match s.toList with
  | [] => none
  | l =>
      if l.all Char.isDigit then
        some (s, call_site_span)
      else
        none

/-- Modelled from the spec: the external float-literal token parser
(`syn::parse_str::<syn::LitFloat>`), restricted to unsuffixed decimal
tokens containing exactly one point. -/
def parse_float_token (s : String) : Option (String × Span) :=
  match s.toList with
  | [] => none
  | c :: rest =>
      if c.isDigit && (c :: rest).all (fun ch => ch.isDigit || ch == '.')
          && (c :: rest).count '.' == 1 then
        some (s, call_site_span)
      else
        none

/-- Modelled from the spec: the Rust standard library boolean parse
(`str::parse::<bool>`): exactly the strings true and false,
case-sensitively. -/
def parse_bool (s : String) : Option Bool :=
  if s == "true" then some true
  else if s == "false" then some false
  else none

/-- Wrap a raw value in double quotes, as the source's
string-formatting step does before re-parsing. -/
def wrap_dquote (value : String) : String :=
  String.singleton dquote ++ value ++ String.singleton dquote

/-- Wrap a raw value as a byte-string token. -/
def wrap_byte_str (value : String) : String :=
  "b" ++ String.singleton dquote ++ value ++ String.singleton dquote

/-- Wrap a raw value as a byte token. -/
def wrap_byte (value : String) : String :=
  "b" ++ String.singleton squote ++ value ++ String.singleton squote

/-- Wrap a raw value as a character token. -/
def wrap_char (value : String) : String :=
  String.singleton squote ++ value ++ String.singleton squote

/-- Embedding of `value_to_literal`: classify the original literal
expression's kind, parse the raw override string as that same kind,
and rebuild a literal expression carrying the original literal's span
and the original node's outer attributes.  Panics in the source become
errors; the source's byte slicing of the leading sign character is
modelled at the character level, with its two out-of-bounds panic
conditions (empty string, non-ASCII first character) made explicit. -/
def value_to_literal (value : String) (original_expr : Expr) : Except String Expr :=
  match original_expr with
  | .unary attrs op inner =>
      match value.toList with
      | [] => .error "byte index 1 is out of bounds"
      | c :: _ =>
          if c.toNat < 128 then
            match value_to_literal (value.drop 1) inner with
            | .ok newInner => .ok (.unary attrs op newInner)
            | .error e => .error e
          else
            .error "byte index 1 is not a char boundary"
  | .lit attrs l =>
      match l with
      | .str _ sp =>
          match parse_str_token (wrap_dquote value) with
          | some new => .ok (.lit attrs (Lit.set_span (.str new.1 new.2) sp))
          | none => .error "Failed to parse environment variable contents as literal string"
      | .byteStr _ sp =>
          match parse_byte_str_token (wrap_byte_str value) with
          | some new => .ok (.lit attrs (Lit.set_span (.byteStr new.1 new.2) sp))
          | none => .error "Failed to parse environment variable contents as literal byte string"
      | .byte _ sp =>
          match parse_byte_token (wrap_byte value) with
          | some new => .ok (.lit attrs (Lit.set_span (.byte new.1 new.2) sp))
          | none => .error "Failed to parse environment variable contents as literal byte"
      | .char _ sp =>
          match parse_char_token (wrap_char value) with
          | some new => .ok (.lit attrs (Lit.set_span (.char new.1 new.2) sp))
          | none => .error "Failed to parse environment variable contents as literal character"
      | .int _ sp =>
          match parse_int_token value with
          | some new => .ok (.lit attrs (Lit.set_span (.int new.1 new.2) sp))
          | none => .error "Failed to parse environment variable contents as literal integer"
      | .float _ sp =>
          match parse_float_token value with
          | some new => .ok (.lit attrs (Lit.set_span (.float new.1 new.2) sp))
          | none => .error "Failed to parse environment variable contents as literal float"
      | .bool _ sp =>
          match parse_bool value with
          | some new => .ok (.lit attrs (.bool new sp))
          | none => .error "Failed to parse environment variable contents as literal boolean"
      | .verbatim _ _ => .error "Verbatim literal found"
  | .paren _ _ => .error "Original const expression was not a recognized literal expression"
  | .other _ => .error "Original const expression was not a recognized literal expression"

/-- Embedding of `extract_var_name_from_expr`: a string literal yields
its value, parentheses are unwrapped recursively, everything else is a
fatal error. -/
def extract_var_name_from_expr (e : Expr) : Except String String :=
  match e with
  | .lit _ l =>
      match l with
      | .str v _ => .ok v
      | _ => .error "Attribute arguments are not a valid string literal"
  | .paren _ inner => extract_var_name_from_expr inner
  | _ => .error "Attribute arguments are not a valid string literal expression"

/-- The attribute token stream handed to the macro: empty, parseable
as an expression, or unparseable. -/
inductive AttrTokens where
  | empty
  | parsed (e : Expr)
  | malformed (tokens : String)
deriving Repr, DecidableEq

/-- Embedding of `extract_var_name`: an empty attribute yields the
default (the declaration identifier); otherwise the attribute tokens
must parse as an expression that reduces to a string literal. -/
def extract_var_name (attr : AttrTokens) (dflt : String) : Except String String :=
  match attr with
  | .empty => .ok dflt
  | .parsed e => extract_var_name_from_expr e
  | .malformed _ => .error "Unable to parse attribute args as expression"

/-- A `const` item (`syn::ItemConst`): identifier, declared type,
initializer expression and span. -/
structure ItemConst where
  ident : String
  ty : String
  expr : Expr
  span : Span
deriving Repr, DecidableEq

/-- A `static` item (`syn::ItemStatic`): identifier, mutability flag,
declared type, initializer expression and span. -/
structure ItemStatic where
  ident : String
  mutability : Bool
  ty : String
  expr : Expr
  span : Span
deriving Repr, DecidableEq

/-- The item token stream handed to the macro, pre-classified by which
`syn` parse succeeds: a `const` item, a `static` item, or anything
else. -/
inductive Item where
  | itemConst (c : ItemConst)
  | itemStatic (s : ItemStatic)
  | other (tokens : String)
deriving Repr, DecidableEq

/-- Whether an item is one of the two declaration shapes. -/
def Item.is_decl : Item → Bool
  | .itemConst _ => true
  | .itemStatic _ => true
  | .other _ => false

/-- The declaration identifier of an item (empty for non-declarations). -/
def Item.decl_ident : Item → String
  | .itemConst c => c.ident
  | .itemStatic s => s.ident
  | .other _ => ""

/-- Embedding of `from_env`, the entry point: resolve the override key
(the identifier by default, an explicit string-literal attribute
otherwise), look it up in the provider, and either return the item
unchanged (key absent) or replace the initializer expression with the
rewritten literal.  An item that is neither a `const` nor a `static`
declaration is a panic in the source. -/
def from_env (attr : AttrTokens) (item : Item) (read_env : String → Option String) :
    Except String Item :=
  match item with
  | .itemConst item_const =>
      match extract_var_name attr item_const.ident with
      | .error e => .error e
      | .ok var_name =>
          match read_env var_name with
          | none => .ok item
          | some var_value =>
              match value_to_literal var_value item_const.expr with
              | .error e => .error e
              | .ok new_expr => .ok (.itemConst { item_const with expr := new_expr })
  | .itemStatic item_static =>
      match extract_var_name attr item_static.ident with
      | .error e => .error e
      | .ok var_name =>
          match read_env var_name with
          | none => .ok item
          | some var_value =>
              match value_to_literal var_value item_static.expr with
              | .error e => .error e
              | .ok new_expr => .ok (.itemStatic { item_static with expr := new_expr })
  | .other _ => .error "TODO: error reporting"

/-- The in-memory test provider (`TestEnv`), modelling the hash map as
an association list where later insertions shadow earlier ones. -/
structure TestEnv where
  env_vars : List (String × String)
deriving Repr, DecidableEq

/-- The accumulating builder for `TestEnv`. -/
structure TestEnvBuilder where
  env_vars : List (String × String)
deriving Repr, DecidableEq

/-- Embedding of `TestEnv::builder`. -/
def TestEnv.builder : TestEnvBuilder := ⟨[]⟩

/-- Embedding of `TestEnvBuilder::set`: insert a key-value pair,
shadowing any earlier binding of the same key. -/
def TestEnvBuilder.set (b : TestEnvBuilder) (name value : String) : TestEnvBuilder :=
  ⟨(name, value) :: b.env_vars⟩

/-- Embedding of `TestEnvBuilder::build`. -/
def TestEnvBuilder.build (b : TestEnvBuilder) : TestEnv :=
  ⟨b.env_vars⟩

/-- Embedding of `TestEnv::read_env`: lookup by exact key match. -/
def TestEnv.read_env (e : TestEnv) (var_name : String) : Option String :=
  (e.env_vars.find? (fun p => p.1 == var_name)).map (fun p => p.2)

end ConstEnv

namespace ConstEnv

/-- Claim C1: for every declaration (const or static) whose resolved
override key is absent from the value provider, the entry point
returns the declaration unchanged. -/
theorem from_env_absent_key_returns_item
    (attr : AttrTokens) (item : Item) (env : String → Option String) (key : String)
    (hdecl : item.is_decl = true)
    (hkey : extract_var_name attr item.decl_ident = .ok key)
    (habsent : env key = none) :
    from_env attr item env = .ok item := by
  cases item with
  | itemConst c =>
      simp only [Item.decl_ident] at hkey
      simp [from_env, hkey, habsent]
  | itemStatic s =>
      simp only [Item.decl_ident] at hkey
      simp [from_env, hkey, habsent]
  | other t => simp [Item.is_decl] at hdecl

/-- Witness for C1 at a concrete declaration and an empty provider. -/
theorem from_env_absent_key_witness :
    from_env .empty (.itemConst ⟨"NAME", "str", .lit [] (.str "default" 4), 2⟩)
      (fun _ => none) = .ok (.itemConst ⟨"NAME", "str", .lit [] (.str "default" 4), 2⟩) :=
  from_env_absent_key_returns_item .empty
    (.itemConst ⟨"NAME", "str", .lit [] (.str "default" 4), 2⟩)
    (fun _ => none) "NAME" rfl rfl rfl

/-- Claim C2: a successful rewrite of a literal expression yields a
literal expression carrying the same kind tag as the original; only
the payload changes. -/
theorem value_to_literal_kind_preservation
    (v : String) (a : List String) (l : Lit) (e : Expr)
    (h : value_to_literal v (Expr.lit a l) = .ok e) :
    ∃ l2, e = Expr.lit a l2 ∧ l2.kind = l.kind := by
  cases l <;> simp only [value_to_literal] at h <;>
    first
      | exact Except.noConfusion h
      | (split at h <;> simp_all [Lit.kind, Lit.set_span] <;> exact ⟨_, h.symm, rfl⟩)

/-- Witness for C2: rewriting a string literal with a concrete value. -/
theorem value_to_literal_kind_preservation_witness :
    ∃ l2, Expr.lit [] (Lit.str "hello" 5) = Expr.lit [] l2 ∧
      l2.kind = (Lit.str "default" 5).kind :=
  value_to_literal_kind_preservation "hello" [] (Lit.str "default" 5)
    (Expr.lit [] (Lit.str "hello" 5)) rfl

/-- Claim C3: on a unary wrapper the rewriter recurses into the inner
expression with the first (sign) character stripped from the raw value
and re-wraps the result in the same unary node; concretely, rewriting
a literal declared as minus five with raw value minus forty-two yields
the negated forty-two literal with the wrapper retained. -/
theorem value_to_literal_unary_sign :
    (∀ (v : String) (a : List String) (op : UnOp) (inner : Expr) (c : Char) (rest : List Char),
        v.toList = c :: rest → c.toNat < 128 →
        value_to_literal v (Expr.unary a op inner)
          = Except.map (Expr.unary a op) (value_to_literal (v.drop 1) inner))
    ∧ value_to_literal "-42" (Expr.unary [] .neg (Expr.lit [] (Lit.int "5" 9)))
        = .ok (Expr.unary [] .neg (Expr.lit [] (Lit.int "42" 9))) := by
  constructor
  · intro v a op inner c rest hv hc
    simp only [value_to_literal, hv, hc, if_pos]
    cases value_to_literal (v.drop 1) inner <;> simp [Except.map]
  · rfl

/-- Witness for C3's general conjunct at a concrete signed value. -/
theorem value_to_literal_unary_sign_witness :
    value_to_literal "-7" (Expr.unary [] .neg (Expr.lit [] (Lit.int "1" 3)))
      = Except.map (Expr.unary [] UnOp.neg)
          (value_to_literal ("-7".drop 1) (Expr.lit [] (Lit.int "1" 3))) :=
  value_to_literal_unary_sign.1 "-7" [] .neg (Expr.lit [] (Lit.int "1" 3))
    '-' ['7'] rfl (by decide)

/-- Claim C4: rewriting a boolean literal succeeds exactly when the
raw value is the string true or the string false (case-sensitive);
the raw value yes fails fatally on a boolean literal, and the raw
value abc fails fatally on an integer literal. -/
theorem value_to_literal_bool_int_rejection :
    (∀ (v : String) (a : List String) (b : Bool) (sp : Span),
        (∃ e, value_to_literal v (Expr.lit a (Lit.bool b sp)) = .ok e)
          ↔ (v = "true" ∨ v = "false"))
    ∧ (∀ (a : List String) (b : Bool) (sp : Span),
        value_to_literal "yes" (Expr.lit a (Lit.bool b sp))
          = .error "Failed to parse environment variable contents as literal boolean")
    ∧ (∀ (a : List String) (tok : String) (sp : Span),
        value_to_literal "abc" (Expr.lit a (Lit.int tok sp))
          = .error "Failed to parse environment variable contents as literal integer") := by
  refine ⟨?_, fun a b sp => rfl, fun a tok sp => rfl⟩
  intro v a b sp
  constructor
  · rintro ⟨e, he⟩
    simp only [value_to_literal, parse_bool] at he
    by_cases h1 : v = "true"
    · exact Or.inl h1
    · by_cases h2 : v = "false"
      · exact Or.inr h2
      · simp [h1, h2] at he
  · rintro (h | h) <;> subst h <;> exact ⟨_, rfl⟩

/-- Witness for C4's success direction at the value true. -/
theorem value_to_literal_bool_int_rejection_witness :
    ∃ e, value_to_literal "true" (Expr.lit [] (Lit.bool false 0)) = .ok e :=
  (value_to_literal_bool_int_rejection.1 "true" [] false 0).mpr (Or.inl rfl)

/-- Claim C5: a successful rewrite of a literal expression produces a
literal carrying the original literal's span (not the call-site span
of the replacement text), and the original node's outer attributes
unchanged. -/
theorem value_to_literal_span_attrs_preservation
    (v : String) (a : List String) (l : Lit) (e : Expr)
    (h : value_to_literal v (Expr.lit a l) = .ok e) :
    ∃ l2, e = Expr.lit a l2 ∧ l2.span = l.span := by
  cases l <;> simp only [value_to_literal] at h <;>
    first
      | exact Except.noConfusion h
      | (split at h <;> simp_all [Lit.span, Lit.set_span] <;> exact ⟨_, h.symm, rfl⟩)

/-- Witness for C5: rewriting an integer literal keeps its span 9. -/
theorem value_to_literal_span_attrs_preservation_witness :
    ∃ l2, Expr.lit [] (Lit.int "42" 9) = Expr.lit [] l2 ∧
      l2.span = (Lit.int "5" 9).span :=
  value_to_literal_span_attrs_preservation "42" [] (Lit.int "5" 9)
    (Expr.lit [] (Lit.int "42" 9)) rfl

/-- Claim C6: with no attribute argument the override key is the
declaration identifier verbatim; with an explicit string-literal key
the lookup uses that key instead, so with a provider mapping the
identifier to A and the explicit key to B, the value B is used. -/
theorem key_resolution_default_and_explicit :
    (∀ dflt : String, extract_var_name .empty dflt = .ok dflt)
    ∧ from_env (.parsed (.lit [] (.str "OTHER_KEY" 0)))
        (.itemConst ⟨"name", "str", .lit [] (.str "X" 2), 1⟩)
        ((TestEnv.builder.set "name" "A" |>.set "OTHER_KEY" "B").build.read_env)
        = .ok (.itemConst ⟨"name", "str", .lit [] (.str "B" 2), 1⟩) :=
  ⟨fun _ => rfl, rfl⟩

/-- Claim C7: key extraction unwraps parentheses recursively, accepts
a string literal, and rejects every other expression shape (non-string
literals, unary expressions, any other shape) as a fatal error. -/
theorem extract_var_name_from_expr_shapes :
    (∀ (a : List String) (e : Expr),
        extract_var_name_from_expr (Expr.paren a e) = extract_var_name_from_expr e)
    ∧ (∀ (a : List String) (s : String) (sp : Span),
        extract_var_name_from_expr (Expr.lit a (Lit.str s sp)) = .ok s)
    ∧ (∀ (a : List String) (l : Lit), (∀ (s : String) (sp : Span), l ≠ Lit.str s sp) →
        extract_var_name_from_expr (Expr.lit a l)
          = .error "Attribute arguments are not a valid string literal")
    ∧ (∀ (a : List String) (op : UnOp) (e : Expr),
        extract_var_name_from_expr (Expr.unary a op e)
          = .error "Attribute arguments are not a valid string literal expression")
    ∧ (∀ (d : String),
        extract_var_name_from_expr (Expr.other d)
          = .error "Attribute arguments are not a valid string literal expression") := by
  refine ⟨fun a e => rfl, fun a s sp => rfl, ?_, fun a op e => rfl, fun d => rfl⟩
  intro a l h
  cases l with
  | str s sp => exact absurd rfl (h s sp)
  | byteStr _ _ => rfl
  | byte _ _ => rfl
  | char _ _ => rfl
  | int _ _ => rfl
  | float _ _ => rfl
  | bool _ _ => rfl
  | verbatim _ _ => rfl

/-- Witness for C7's rejection conjunct at a boolean literal. -/
theorem extract_var_name_from_expr_shapes_witness :
    extract_var_name_from_expr (Expr.lit [] (Lit.bool true 0))
      = .error "Attribute arguments are not a valid string literal" :=
  extract_var_name_from_expr_shapes.2.2.1 [] (Lit.bool true 0)
    (fun _ _ h => Lit.noConfusion h)

/-- Claim C8: a successful run of the entry point only replaces the
initializer expression: the output declaration is the input with the
expression slot updated, so identifier, declared type, mutability and
span are unchanged. -/
theorem from_env_frame :
    (∀ (attr : AttrTokens) (env : String → Option String) (c : ItemConst) (it : Item),
        from_env attr (.itemConst c) env = .ok it →
        ∃ e2, it = .itemConst { c with expr := e2 })
    ∧ (∀ (attr : AttrTokens) (env : String → Option String) (s : ItemStatic) (it : Item),
        from_env attr (.itemStatic s) env = .ok it →
        ∃ e2, it = .itemStatic { s with expr := e2 }) := by
  constructor
  · intro attr env c it h
    simp only [from_env] at h
    split at h
    · exact absurd h (by simp)
    · split at h
      · exact ⟨c.expr, by injection h with h2; exact h2.symm⟩
      · split at h
        · exact absurd h (by simp)
        · exact ⟨_, by injection h with h2; exact h2.symm⟩
  · intro attr env s it h
    simp only [from_env] at h
    split at h
    · exact absurd h (by simp)
    · split at h
      · exact ⟨s.expr, by injection h with h2; exact h2.symm⟩
      · split at h
        · exact absurd h (by simp)
        · exact ⟨_, by injection h with h2; exact h2.symm⟩

/-- Witness for C8 at a concrete integer const rewrite. -/
theorem from_env_frame_witness :
    ∃ e2, Item.itemConst ⟨"LIMIT", "i32", Expr.lit [] (Lit.int "99" 7), 3⟩
      = Item.itemConst { (⟨"LIMIT", "i32", Expr.lit [] (Lit.int "10" 7), 3⟩ : ItemConst)
          with expr := e2 } :=
  from_env_frame.1 .empty (fun k => if k == "LIMIT" then some "99" else none)
    ⟨"LIMIT", "i32", Expr.lit [] (Lit.int "10" 7), 3⟩
    (Item.itemConst ⟨"LIMIT", "i32", Expr.lit [] (Lit.int "99" 7), 3⟩) rfl

/-- Counterexample to C9 as stated: the fatal message produced when
raw value abc fails to parse as an integer is a fixed string that
contains neither the raw override value nor any declaration name
(such as LIMIT). -/
theorem parse_failure_message_omits_value_and_name :
    value_to_literal "abc" (Expr.lit [] (Lit.int "10" 5))
      = .error "Failed to parse environment variable contents as literal integer"
    ∧ ¬ ("abc".toList <:+:
        ("Failed to parse environment variable contents as literal integer").toList)
    ∧ ¬ ("LIMIT".toList <:+:
        ("Failed to parse environment variable contents as literal integer").toList) :=
  ⟨rfl, by decide, by decide⟩

/-- Amended C9: every parse failure during kind dispatch — for each of
the seven literal kinds — is fatal, with a fixed message naming the
kind that was expected (independent of the raw value and of the
declaration), and errors propagate uncaught through the entry point
for both declaration shapes. -/
theorem parse_failure_fatal_fixed_message :
    (∀ (v : String) (a : List String) (orig : String) (sp : Span),
        parse_str_token (wrap_dquote v) = none →
        value_to_literal v (Expr.lit a (Lit.str orig sp))
          = .error "Failed to parse environment variable contents as literal string")
    ∧ (∀ (v : String) (a : List String) (orig : String) (sp : Span),
        parse_byte_str_token (wrap_byte_str v) = none →
        value_to_literal v (Expr.lit a (Lit.byteStr orig sp))
          = .error "Failed to parse environment variable contents as literal byte string")
    ∧ (∀ (v : String) (a : List String) (orig : Char) (sp : Span),
        parse_byte_token (wrap_byte v) = none →
        value_to_literal v (Expr.lit a (Lit.byte orig sp))
          = .error "Failed to parse environment variable contents as literal byte")
    ∧ (∀ (v : String) (a : List String) (orig : Char) (sp : Span),
        parse_char_token (wrap_char v) = none →
        value_to_literal v (Expr.lit a (Lit.char orig sp))
          = .error "Failed to parse environment variable contents as literal character")
    ∧ (∀ (v : String) (a : List String) (tok : String) (sp : Span),
        parse_int_token v = none →
        value_to_literal v (Expr.lit a (Lit.int tok sp))
          = .error "Failed to parse environment variable contents as literal integer")
    ∧ (∀ (v : String) (a : List String) (tok : String) (sp : Span),
        parse_float_token v = none →
        value_to_literal v (Expr.lit a (Lit.float tok sp))
          = .error "Failed to parse environment variable contents as literal float")
    ∧ (∀ (v : String) (a : List String) (b : Bool) (sp : Span),
        parse_bool v = none →
        value_to_literal v (Expr.lit a (Lit.bool b sp))
          = .error "Failed to parse environment variable contents as literal boolean")
    ∧ (∀ (attr : AttrTokens) (c : ItemConst) (env : String → Option String)
          (key val msg : String),
        extract_var_name attr c.ident = .ok key → env key = some val →
        value_to_literal val c.expr = .error msg →
        from_env attr (.itemConst c) env = .error msg)
    ∧ (∀ (attr : AttrTokens) (s : ItemStatic) (env : String → Option String)
          (key val msg : String),
        extract_var_name attr s.ident = .ok key → env key = some val →
        value_to_literal val s.expr = .error msg →
        from_env attr (.itemStatic s) env = .error msg) := by
  refine ⟨?_, ?_, ?_, ?_, ?_, ?_, ?_, ?_, ?_⟩
  · intro v a orig sp hp
    simp [value_to_literal, hp]
  · intro v a orig sp hp
    simp [value_to_literal, hp]
  · intro v a orig sp hp
    simp [value_to_literal, hp]
  · intro v a orig sp hp
    simp [value_to_literal, hp]
  · intro v a tok sp hp
    simp [value_to_literal, hp]
  · intro v a tok sp hp
    simp [value_to_literal, hp]
  · intro v a b sp hp
    simp [value_to_literal, hp]
  · intro attr c env key val msg hk he hv
    simp [from_env, hk, he, hv]
  · intro attr s env key val msg hk he hv
    simp [from_env, hk, he, hv]

/-- Witness for amended C9: a concrete failing raw value for each of
the seven literal kinds, and uncaught propagation through the entry
point for a const and for a static declaration. -/
theorem parse_failure_fatal_fixed_message_witness :
    value_to_literal (String.singleton dquote) (Expr.lit [] (Lit.str "d" 0))
      = .error "Failed to parse environment variable contents as literal string"
    ∧ value_to_literal (String.singleton dquote) (Expr.lit [] (Lit.byteStr "d" 0))
        = .error "Failed to parse environment variable contents as literal byte string"
    ∧ value_to_literal "ab" (Expr.lit [] (Lit.byte 'a' 0))
        = .error "Failed to parse environment variable contents as literal byte"
    ∧ value_to_literal "" (Expr.lit [] (Lit.char 'a' 0))
        = .error "Failed to parse environment variable contents as literal character"
    ∧ value_to_literal "abc" (Expr.lit [] (Lit.int "1" 0))
        = .error "Failed to parse environment variable contents as literal integer"
    ∧ value_to_literal "abc" (Expr.lit [] (Lit.float "1.0" 0))
        = .error "Failed to parse environment variable contents as literal float"
    ∧ value_to_literal "yes" (Expr.lit [] (Lit.bool true 0))
        = .error "Failed to parse environment variable contents as literal boolean"
    ∧ from_env .empty (.itemConst ⟨"N", "bool", Expr.lit [] (Lit.bool true 0), 0⟩)
        (fun _ => some "yes")
        = .error "Failed to parse environment variable contents as literal boolean"
    ∧ from_env .empty (.itemStatic ⟨"M", true, "bool", Expr.lit [] (Lit.bool true 0), 0⟩)
        (fun _ => some "yes")
        = .error "Failed to parse environment variable contents as literal boolean" :=
  ⟨parse_failure_fatal_fixed_message.1 (String.singleton dquote) [] "d" 0 rfl,
   parse_failure_fatal_fixed_message.2.1 (String.singleton dquote) [] "d" 0 rfl,
   parse_failure_fatal_fixed_message.2.2.1 "ab" [] 'a' 0 rfl,
   parse_failure_fatal_fixed_message.2.2.2.1 "" [] 'a' 0 rfl,
   parse_failure_fatal_fixed_message.2.2.2.2.1 "abc" [] "1" 0 rfl,
   parse_failure_fatal_fixed_message.2.2.2.2.2.1 "abc" [] "1.0" 0 rfl,
   parse_failure_fatal_fixed_message.2.2.2.2.2.2.1 "yes" [] true 0 rfl,
   parse_failure_fatal_fixed_message.2.2.2.2.2.2.2.1 .empty
     ⟨"N", "bool", Expr.lit [] (Lit.bool true 0), 0⟩
     (fun _ => some "yes") "N" "yes"
     "Failed to parse environment variable contents as literal boolean" rfl rfl rfl,
   parse_failure_fatal_fixed_message.2.2.2.2.2.2.2.2 .empty
     ⟨"M", true, "bool", Expr.lit [] (Lit.bool true 0), 0⟩
     (fun _ => some "yes") "M" "yes"
     "Failed to parse environment variable contents as literal boolean" rfl rfl rfl⟩

/-- Claim C10: an item that parses as neither a const nor a static
declaration is a fatal error in the entry point, for every attribute
argument and every provider state. -/
theorem from_env_non_declaration_fatal
    (attr : AttrTokens) (env : String → Option String) (tokens : String) :
    from_env attr (.other tokens) env = .error "TODO: error reporting" := rfl

end ConstEnv
